import Mathlib

/-!
Verification development for the dulichxanh editorial backend
(`src/index.js`, an Express + Mongoose application).

The embedding below is a shallow model of the route handlers:

* `Post` mirrors the mongoose `PostSchema`; optional string fields of a
  document are `Option String` (a mongoose field that was never set is
  absent, modelled as `none`), `category` is the `[String]` array with
  mongoose default `[]`, `status` and `type` are plain strings carrying
  the schema defaults `"draft"` and `"normal"`.  Mongo's `_id` is `id`,
  `createdAt` is a `Nat` timestamp.
* The persistence layer (an external collaborator) is a `List Post`
  in store order; `find({status:"published"}).sort({createdAt:-1})`
  is modelled by handing the handler the sorted list, `findById` /
  `findByIdAndUpdate` / `findByIdAndDelete` act on the unique document
  whose `id` matches (first match in the list).
* `jwt.verify` is an uninterpreted parameter
  `verify : String → Option Principal`; an invalid or corrupt signature
  is `verify tok = none`.
* The Mongo `$regex ... $options:"i"` predicate on a text field is
  modelled — per the persistence-collaborator contract — as
  case-insensitive substring containment (`icontains`).
-/

namespace DulichXanh

/-- Principal carried by a verified JWT: `{id, username, role}`
(see the `jwt.sign` payloads in `/auth/register` and `/auth/login`). -/
structure Principal where
  id : String
  username : String
  role : String
deriving DecidableEq

/-- A stored post document, mirroring `PostSchema` in `src/index.js`
(lines 52-68).  `id` is the Mongo `_id`. -/
structure Post where
  id : String
  title : Option String
  sapo : Option String
  author : Option String
  authorId : Option String
  thumbnail : Option String
  tags : Option String
  content : Option String
  type : String
  emagPage : Option String
  category : List String
  status : String
  createdAt : Nat
deriving DecidableEq

/-- The JSON payload answered by `GET /home` (lines 366-375 and 418-426). -/
structure HomePayload where
  highlight : Option Post
  recent : List Post
  tintuc : List Post
  trainghiem : List Post
  guongmat : List Post
  gochocthuat : List Post
  multimedia : List Post
deriving DecidableEq

/-- Labels routed to `groups.tintuc` (line 398). -/
def tintucLabels : List String := ["tin-trong-nuoc", "tin-the-gioi"]

/-- Labels routed to `groups.trainghiem` (line 401). -/
def trainghiemLabels : List String :=
  ["am-thuc", "diem-den", "ba-lo-du-lich", "di-chuyen-xanh"]

/-- Labels routed to `groups.guongmat` (line 404). -/
def guongmatLabels : List String :=
  ["nguoi-dan-xanh", "su-gia-van-hoa", "doanh-nghiep-xanh"]

/-- Labels routed to `groups.gochocthuat` (line 407). -/
def gochocthuatLabels : List String :=
  ["cong-nghe-xanh", "tri-thuc-ben-vung", "du-lieu-chinh-sach"]

/-- Labels routed to `groups.multimedia` (line 410). -/
def multimediaLabels : List String := ["anh", "video", "infographic", "emagazine"]

/-- The grouping loop of `GET /home` (lines 394-413) for one group: the
outer `all.forEach(post => ...)` scans posts in order and the inner
`post.category.forEach(cat => ...)` pushes `post` once for every
category label belonging to the group's label list. -/
def groupFor (labels : List String) : List Post → List Post
  | [] => []
  | p :: ps =>
      ((p.category.filter fun c => labels.contains c).map fun _ => p)
        ++ groupFor labels ps

/-- The `GET /home` aggregation (lines 360-432), applied to the list of
published posts already sorted newest-first (as produced by
`Post.find({status:"published"}).sort({createdAt:-1})`).  Empty input
takes the zero-payload early return; otherwise `highlight = all[0]`,
`recent = all.slice(1,3)` and every group is truncated by `.slice(0,4)`. -/
def buildHome : List Post → HomePayload
  | [] =>
      { highlight := none, recent := [], tintuc := [], trainghiem := []
        guongmat := [], gochocthuat := [], multimedia := [] }
  | p :: ps =>
      { highlight := some p
        recent := ps.take 2
        tintuc := (groupFor tintucLabels (p :: ps)).take 4
        trainghiem := (groupFor trainghiemLabels (p :: ps)).take 4
        guongmat := (groupFor guongmatLabels (p :: ps)).take 4
        gochocthuat := (groupFor gochocthuatLabels (p :: ps)).take 4
        multimedia := (groupFor multimediaLabels (p :: ps)).take 4 }

/-- Newest-first comparison on creation timestamps: in a list sorted by
`createdAt` descending, every earlier element is at least as fresh. -/
def fresherEq (a b : Post) : Prop := b.createdAt ≤ a.createdAt

instance : DecidableRel fresherEq := fun a b => by
  unfold fresherEq; infer_instance

/-- Every element produced by the grouping loop comes from the input list. -/
theorem mem_groupFor {labels : List String} {l : List Post} {q : Post}
    (h : q ∈ groupFor labels l) : q ∈ l := by
  induction l with
  | nil => simp [groupFor] at h
  | cons p ps ih =>
      simp only [groupFor, List.mem_append, List.mem_map] at h
      rcases h with ⟨c, _, rfl⟩ | h
      · exact List.mem_cons_self ..
      · exact List.mem_cons_of_mem _ (ih h)

/-- A constant-map block is pairwise for any relation reflexive at the
repeated element. -/
theorem pairwise_map_const {R : Post → Post → Prop} {p : Post}
    (hp : R p p) (xs : List String) :
    ((xs.map fun _ => p).Pairwise R) := by
  induction xs with
  | nil => simp
  | cons x xs ih =>
      simp only [List.map_cons, List.pairwise_cons]
      exact ⟨fun q hq => by rcases List.mem_map.1 hq with ⟨_, _, rfl⟩; exact hp, ih⟩

/-- The grouping loop preserves a reflexive pairwise relation of the
input ordering (in particular newest-first sortedness). -/
theorem pairwise_groupFor {R : Post → Post → Prop} (hrefl : ∀ p, R p p)
    {labels : List String} {l : List Post} (h : l.Pairwise R) :
    (groupFor labels l).Pairwise R := by
  induction l with
  | nil => simp [groupFor]
  | cons p ps ih =>
      rcases List.pairwise_cons.1 h with ⟨hp, hps⟩
      refine List.pairwise_append.2 ⟨pairwise_map_const (hrefl p) _, ih hps, ?_⟩
      intro a ha b hb
      rcases List.mem_map.1 ha with ⟨_, _, rfl⟩
      exact hp b (mem_groupFor hb)

/-- Counting occurrences inside a constant-map block. -/
theorem count_map_const (q p : Post) (xs : List String) :
    (xs.map fun _ => q).count p = if q = p then xs.length else 0 := by
  induction xs with
  | nil => simp
  | cons x xs ih =>
      simp only [List.map_cons, List.count_cons, ih, beq_iff_eq]
      by_cases h : q = p
      · subst h; simp
      · simp [h, Ne.symm h]

/-- Multiplicity law of the grouping loop: each occurrence of a post in
the scanned list contributes one entry per category label of the post
that belongs to the group. -/
theorem count_groupFor (labels : List String) (l : List Post) (p : Post) :
    (groupFor labels l).count p
      = l.count p * (p.category.filter fun c => labels.contains c).length := by
  induction l with
  | nil => simp [groupFor]
  | cons q ps ih =>
      simp only [groupFor, List.count_append, ih, count_map_const]
      by_cases h : q = p
      · subst h; simp [List.count_cons, Nat.succ_mul, Nat.add_comm]
      · simp [List.count_cons, h]

/-- One truncated section keeps at most 4 entries and stays sorted. -/
theorem section_take_ok (labels : List String) {l : List Post}
    (hsort : l.Pairwise fresherEq) :
    ((groupFor labels l).take 4).length ≤ 4 ∧
      ((groupFor labels l).take 4).Pairwise fresherEq := by
  constructor
  · exact List.length_take_le ..
  · exact ((pairwise_groupFor (fun p => Nat.le_refl _) hsort).sublist
      (List.take_sublist 4 _))

/-- C8: When the set of published posts is empty, the home-feed
aggregation returns `highlight = none`, an empty `recent` list, and all
five section lists empty. -/
theorem home_empty_payload :
    buildHome [] =
      { highlight := none, recent := [], tintuc := [], trainghiem := []
        guongmat := [], gochocthuat := [], multimedia := [] } := rfl

/-- C1: On a non-empty newest-first list of published posts, the
home-feed payload puts the first (freshest) post in `highlight`, the
next two posts (in order, fewer if the list is short) in `recent`, and
each of the five section lists has at most 4 entries and preserves the
newest-first order of the input. -/
theorem home_nonempty_shape (all : List Post) (hne : all ≠ [])
    (hsort : all.Pairwise fresherEq) :
    (buildHome all).highlight = all.head? ∧
    (buildHome all).recent = (all.drop 1).take 2 ∧
    ((buildHome all).tintuc.length ≤ 4 ∧
      (buildHome all).tintuc.Pairwise fresherEq) ∧
    ((buildHome all).trainghiem.length ≤ 4 ∧
      (buildHome all).trainghiem.Pairwise fresherEq) ∧
    ((buildHome all).guongmat.length ≤ 4 ∧
      (buildHome all).guongmat.Pairwise fresherEq) ∧
    ((buildHome all).gochocthuat.length ≤ 4 ∧
      (buildHome all).gochocthuat.Pairwise fresherEq) ∧
    ((buildHome all).multimedia.length ≤ 4 ∧
      (buildHome all).multimedia.Pairwise fresherEq) := by
  cases all with
  | nil => exact absurd rfl hne
  | cons p ps =>
      refine ⟨rfl, rfl, ?_, ?_, ?_, ?_, ?_⟩ <;>
        exact section_take_ok _ hsort

/-- The three-post example from the spec: `P1` newest with a news label,
`P2` with a cuisine label, `P3` with a news label and a photo label. -/
def mkSample (i : String) (cats : List String) (t : Nat) : Post :=
  { id := i, title := none, sapo := none, author := none, authorId := none
    thumbnail := none, tags := none, content := none, type := "normal"
    emagPage := none, category := cats, status := "published", createdAt := t }

def samplePosts : List Post :=
  [mkSample "p1" ["tin-trong-nuoc"] 30,
   mkSample "p2" ["am-thuc"] 20,
   mkSample "p3" ["tin-trong-nuoc", "anh"] 10]

/-- Witness for C1 at the spec's three-post example. -/
theorem home_nonempty_shape_witness :
    (buildHome samplePosts).highlight = samplePosts.head? ∧
    (buildHome samplePosts).recent = (samplePosts.drop 1).take 2 ∧
    ((buildHome samplePosts).tintuc.length ≤ 4 ∧
      (buildHome samplePosts).tintuc.Pairwise fresherEq) ∧
    ((buildHome samplePosts).trainghiem.length ≤ 4 ∧
      (buildHome samplePosts).trainghiem.Pairwise fresherEq) ∧
    ((buildHome samplePosts).guongmat.length ≤ 4 ∧
      (buildHome samplePosts).guongmat.Pairwise fresherEq) ∧
    ((buildHome samplePosts).gochocthuat.length ≤ 4 ∧
      (buildHome samplePosts).gochocthuat.Pairwise fresherEq) ∧
    ((buildHome samplePosts).multimedia.length ≤ 4 ∧
      (buildHome samplePosts).multimedia.Pairwise fresherEq) :=
  home_nonempty_shape samplePosts (by decide) (by decide)

/-- A published post carrying two labels of the same group
(`anh` and `video`, both in the multimedia group). -/
def twoLabelPost : Post :=
  { id := "dup", title := none, sapo := none, author := none, authorId := none
    thumbnail := none, tags := none, content := none, type := "normal"
    emagPage := none, category := ["anh", "video"], status := "published"
    createdAt := 10 }

/-- C2 counterexample: a post whose category set holds two labels of the
multimedia group appears twice, not once, in the multimedia section of
the home payload — the grouping loop appends once per matching label,
not once per matching section. -/
theorem group_once_counterexample :
    (buildHome [twoLabelPost]).multimedia.count twoLabelPost = 2 ∧
    ¬ (buildHome [twoLabelPost]).multimedia.count twoLabelPost = 1 := by
  decide

/-- C2 (amended): in every section's group list, each post is appended
once per qualifying category label — its multiplicity is (occurrences in
the input) × (number of its labels in the section's label group) —
independent of its use as highlight or recent (no deduplication), and
the payload's section lists are exactly these group lists truncated to
their first 4 entries. -/
theorem group_membership_law (all : List Post) (p : Post) :
    ((groupFor tintucLabels all).count p
      = all.count p * (p.category.filter fun c => tintucLabels.contains c).length) ∧
    ((groupFor trainghiemLabels all).count p
      = all.count p * (p.category.filter fun c => trainghiemLabels.contains c).length) ∧
    ((groupFor guongmatLabels all).count p
      = all.count p * (p.category.filter fun c => guongmatLabels.contains c).length) ∧
    ((groupFor gochocthuatLabels all).count p
      = all.count p * (p.category.filter fun c => gochocthuatLabels.contains c).length) ∧
    ((groupFor multimediaLabels all).count p
      = all.count p * (p.category.filter fun c => multimediaLabels.contains c).length) ∧
    (buildHome all).tintuc = (groupFor tintucLabels all).take 4 ∧
    (buildHome all).trainghiem = (groupFor trainghiemLabels all).take 4 ∧
    (buildHome all).guongmat = (groupFor guongmatLabels all).take 4 ∧
    (buildHome all).gochocthuat = (groupFor gochocthuatLabels all).take 4 ∧
    (buildHome all).multimedia = (groupFor multimediaLabels all).take 4 := by
  refine ⟨count_groupFor .., count_groupFor .., count_groupFor ..,
    count_groupFor .., count_groupFor .., ?_, ?_, ?_, ?_, ?_⟩ <;>
    cases all <;> rfl

/-! ## Authorization gate and mutation routes -/

/-- Outcome of the `requireAuth` middleware (lines 75-89). -/
inductive AuthResult where
  | ok (p : Principal)
  | unauthorized (msg : String)
deriving DecidableEq

/-- `AuthResult.isOk` -/
def AuthResult.isOk : AuthResult → Bool
  | .ok _ => true
  | .unauthorized _ => false

/-- JavaScript `String.prototype.split` with a one-character separator:
`"".split(s)` is `[""]`, empty segments are kept. -/
def jsSplitAux (sep : Char) : List Char → List Char → List (List Char)
  | [], acc => [acc.reverse]
  | c :: cs, acc =>
      if c = sep then acc.reverse :: jsSplitAux sep cs []
      else jsSplitAux sep cs (c :: acc)

def jsSplit (s : String) (sep : Char) : List String :=
  (jsSplitAux sep s.data []).map String.mk

/-- The `requireAuth` middleware (lines 75-89): missing header → 401;
`authHeader.split(" ")[1]` missing or empty (both falsy in JS) → 401;
`jwt.verify` failure → 401; otherwise the decoded payload becomes the
request's principal.  `verify` models `jwt.verify(token, JWT_SECRET)`,
returning `none` on an invalid or corrupt signature. -/
def requireAuth (verify : String → Option Principal) :
    Option String → AuthResult
  | none => .unauthorized "Missing Authorization header"
  | some h =>
      match (jsSplit h ' ')[1]? with
      | none => .unauthorized "Invalid Authorization header"
      | some tok =>
          if tok = "" then .unauthorized "Invalid Authorization header"
          else
            match verify tok with
            | none => .unauthorized "Invalid or expired token"
            | some p => .ok p

/-- Request body of the post routes: every `PostSchema` field may be
present or absent (`authorId` and `status` included — the routes decide
what to do with them). -/
structure PostInput where
  title : Option String := none
  sapo : Option String := none
  author : Option String := none
  authorId : Option String := none
  thumbnail : Option String := none
  tags : Option String := none
  content : Option String := none
  type : Option String := none
  emagPage : Option String := none
  category : Option (List String) := none
  status : Option String := none
deriving DecidableEq

/-- `new Post(data)` after `data.authorId = req.user.id` (lines 174-177):
absent fields stay absent, mongoose defaults fill `type` (`"normal"`),
`category` (`[]`) and `status` (`"draft"`); Mongo generates `_id` and
`createdAt` defaults to the current time (passed in as `newId`/`now`). -/
def mkPost (body : PostInput) (userId : String) (newId : String) (now : Nat) :
    Post :=
  { id := newId
    title := body.title
    sapo := body.sapo
    author := body.author
    authorId := some userId
    thumbnail := body.thumbnail
    tags := body.tags
    content := body.content
    type := body.type.getD "normal"
    emagPage := body.emagPage
    category := body.category.getD []
    status := body.status.getD "draft"
    createdAt := now }

/-- Mongoose `findByIdAndUpdate(id, ..., {new:true})`: update the (unique)
document whose `_id` matches — modelled as the first match in store
order — returning the updated document, or `null` when no document has
that id. -/
def findByIdAndUpdate (pid : String) (f : Post → Post) :
    List Post → Option Post × List Post
  | [] => (none, [])
  | p :: ps =>
      if p.id = pid then (some (f p), f p :: ps)
      else
        let r := findByIdAndUpdate pid f ps
        (r.1, p :: r.2)

/-- Mongoose `findByIdAndDelete(id)`: remove the document whose `_id`
matches, if any. -/
def findByIdAndDelete (pid : String) : List Post → List Post
  | [] => []
  | p :: ps => if p.id = pid then ps else p :: findByIdAndDelete pid ps

/-- `findByIdAndUpdate(id, req.body)` casts the body to a `$set`: fields
present in the body replace the stored ones, absent fields are kept. -/
def applyInput (b : PostInput) (p : Post) : Post :=
  { id := p.id
    title := b.title.orElse fun _ => p.title
    sapo := b.sapo.orElse fun _ => p.sapo
    author := b.author.orElse fun _ => p.author
    authorId := b.authorId.orElse fun _ => p.authorId
    thumbnail := b.thumbnail.orElse fun _ => p.thumbnail
    tags := b.tags.orElse fun _ => p.tags
    content := b.content.orElse fun _ => p.content
    type := b.type.getD p.type
    emagPage := b.emagPage.orElse fun _ => p.emagPage
    category := b.category.getD p.category
    status := b.status.getD p.status
    createdAt := p.createdAt }

/-- Result of a routed request: HTTP status, the post in the JSON body
(when the body is a post or `null`), and the post store afterwards. -/
structure MutResult where
  status : Nat
  body : Option Post
  store : List Post
deriving DecidableEq

/-- `POST /posts` (lines 172-183): behind `requireAuth`; overwrites the
body's `authorId` with `req.user.id`, saves, answers the stored post. -/
def createPost (verify : String → Option Principal) (authHeader : Option String)
    (body : PostInput) (newId : String) (now : Nat) (store : List Post) :
    MutResult :=
  match requireAuth verify authHeader with
  | .unauthorized _ => ⟨401, none, store⟩
  | .ok u =>
      let p := mkPost body u.id newId now
      ⟨200, some p, store ++ [p]⟩

/-- `PUT /posts/:id` (lines 185-193): behind `requireAuth`;
`findByIdAndUpdate(id, req.body, {new:true})`, answering the result —
`null` (HTTP 200) when the id resolves to no document. -/
def updatePost (verify : String → Option Principal) (authHeader : Option String)
    (pid : String) (body : PostInput) (store : List Post) : MutResult :=
  match requireAuth verify authHeader with
  | .unauthorized _ => ⟨401, none, store⟩
  | .ok _ =>
      let r := findByIdAndUpdate pid (applyInput body) store
      ⟨200, r.1, r.2⟩

/-- `DELETE /posts/:id` (lines 195-203): behind `requireAuth`;
`findByIdAndDelete`, always answering `{message:"Deleted"}`. -/
def deletePost (verify : String → Option Principal) (authHeader : Option String)
    (pid : String) (store : List Post) : MutResult :=
  match requireAuth verify authHeader with
  | .unauthorized _ => ⟨401, none, store⟩
  | .ok _ => ⟨200, none, findByIdAndDelete pid store⟩

/-- `PATCH /posts/:id/publish` (lines 205-217): behind `requireAuth`;
`findByIdAndUpdate(id, {status:"published"}, {new:true})`. -/
def publishPost (verify : String → Option Principal) (authHeader : Option String)
    (pid : String) (store : List Post) : MutResult :=
  match requireAuth verify authHeader with
  | .unauthorized _ => ⟨401, none, store⟩
  | .ok _ =>
      let r := findByIdAndUpdate pid (fun p => { p with status := "published" }) store
      ⟨200, r.1, r.2⟩

/-- `PATCH /posts/:id/unpublish` (lines 219-231): behind `requireAuth`;
`findByIdAndUpdate(id, {status:"draft"}, {new:true})`. -/
def unpublishPost (verify : String → Option Principal) (authHeader : Option String)
    (pid : String) (store : List Post) : MutResult :=
  match requireAuth verify authHeader with
  | .unauthorized _ => ⟨401, none, store⟩
  | .ok _ =>
      let r := findByIdAndUpdate pid (fun p => { p with status := "draft" }) store
      ⟨200, r.1, r.2⟩

/-- `GET /posts/:id` (lines 234-243): behind `requireAuth`; 404 when
`findById` yields `null`, otherwise the post. -/
def getPost (verify : String → Option Principal) (authHeader : Option String)
    (pid : String) (store : List Post) : Nat × Option Post :=
  match requireAuth verify authHeader with
  | .unauthorized _ => (401, none)
  | .ok _ =>
      match store.find? (fun p => p.id = pid) with
      | none => (404, none)
      | some p => (200, some p)

/-- Everything of a `Post` except its `status` field. -/
structure PostFrame where
  id : String
  title : Option String
  sapo : Option String
  author : Option String
  authorId : Option String
  thumbnail : Option String
  tags : Option String
  content : Option String
  type : String
  emagPage : Option String
  category : List String
  createdAt : Nat
deriving DecidableEq

/-- `Post.frame` -/
def Post.frame (p : Post) : PostFrame :=
  { id := p.id, title := p.title, sapo := p.sapo, author := p.author
    authorId := p.authorId, thumbnail := p.thumbnail, tags := p.tags
    content := p.content, type := p.type, emagPage := p.emagPage
    category := p.category, createdAt := p.createdAt }

/-- An update function touching no field outside `status` leaves the
store's frames untouched. -/
theorem frame_map_findByIdAndUpdate (pid : String) (f : Post → Post)
    (hf : ∀ q, Post.frame (f q) = Post.frame q) (store : List Post) :
    ((findByIdAndUpdate pid f store).2).map Post.frame
      = store.map Post.frame := by
  induction store with
  | nil => rfl
  | cons q ps ih =>
      by_cases h : q.id = pid
      · simp [findByIdAndUpdate, h, hf]
      · simp [findByIdAndUpdate, h, ih]

/-- `findByIdAndUpdate` on an id resolved by `find?` returns the updated
document, which is again what `find?` sees in the new store. -/
theorem find_findByIdAndUpdate (pid : String) (f : Post → Post)
    (hid : ∀ q, (f q).id = q.id) (store : List Post) (p : Post)
    (h : store.find? (fun q => q.id = pid) = some p) :
    (findByIdAndUpdate pid f store).1 = some (f p) ∧
    ((findByIdAndUpdate pid f store).2).find? (fun q => q.id = pid)
      = some (f p) := by
  induction store with
  | nil => simp at h
  | cons q ps ih =>
      by_cases hq : q.id = pid
      · rw [List.find?_cons_of_pos _ (by simpa using hq)] at h
        have hqp : q = p := Option.some.inj h
        rw [hqp] at hq
        constructor
        · rw [hqp]
          simp [findByIdAndUpdate, hq]
        · rw [hqp]
          simp only [findByIdAndUpdate, if_pos hq]
          exact List.find?_cons_of_pos _ (by simpa using (hid p).trans hq)
      · rw [List.find?_cons_of_neg _ (by simpa using hq)] at h
        rcases ih h with ⟨ih1, ih2⟩
        constructor
        · simp [findByIdAndUpdate, hq, ih1]
        · simp only [findByIdAndUpdate, if_neg hq]
          rw [List.find?_cons_of_neg _ (by simpa using hq)]
          exact ih2

/-- When no stored document carries the id, `findByIdAndUpdate` returns
`null` and leaves the store as it was. -/
theorem findByIdAndUpdate_absent (pid : String) (f : Post → Post)
    (store : List Post) (habs : ∀ p ∈ store, p.id ≠ pid) :
    findByIdAndUpdate pid f store = (none, store) := by
  induction store with
  | nil => rfl
  | cons q ps ih =>
      have hq : q.id ≠ pid := habs q (List.mem_cons_self ..)
      simp [findByIdAndUpdate, hq,
        ih fun p hp => habs p (List.mem_cons_of_mem _ hp)]

/-- C3: Every mutation route (`create/update/delete/publish/unpublish`)
called with a missing Authorization header, a header with no (or an
empty) token segment, or a token the verifier rejects, answers 401 and
leaves the post store unchanged. -/
theorem mutation_unauthenticated_401 (verify : String → Option Principal)
    (authHeader : Option String) (body : PostInput) (pid newId : String)
    (now : Nat) (store : List Post)
    (h : authHeader = none
      ∨ (∃ hd, authHeader = some hd ∧
          ∀ tok, (jsSplit hd ' ')[1]? = some tok → tok = "")
      ∨ (∃ hd tok, authHeader = some hd ∧
          (jsSplit hd ' ')[1]? = some tok ∧ verify tok = none)) :
    createPost verify authHeader body newId now store = ⟨401, none, store⟩ ∧
    updatePost verify authHeader pid body store = ⟨401, none, store⟩ ∧
    deletePost verify authHeader pid store = ⟨401, none, store⟩ ∧
    publishPost verify authHeader pid store = ⟨401, none, store⟩ ∧
    unpublishPost verify authHeader pid store = ⟨401, none, store⟩ := by
  have hnot : AuthResult.isOk (requireAuth verify authHeader) = false := by
    rcases h with rfl | ⟨hd, rfl, hmal⟩ | ⟨hd, tok, rfl, hget, hver⟩
    · rfl
    · simp only [requireAuth]
      cases hg : (jsSplit hd ' ')[1]? with
      | none => rfl
      | some t =>
          have ht := hmal t hg
          subst ht
          simp [AuthResult.isOk]
    · simp only [requireAuth]
      rw [hget]
      by_cases ht : tok = ""
      · simp [ht, AuthResult.isOk]
      · simp [ht, hver, AuthResult.isOk]
  cases hra : requireAuth verify authHeader with
  | ok u => rw [hra] at hnot; exact absurd hnot (by simp [AuthResult.isOk])
  | unauthorized m =>
      exact ⟨by simp [createPost, hra], by simp [updatePost, hra],
        by simp [deletePost, hra], by simp [publishPost, hra],
        by simp [unpublishPost, hra]⟩

/-- Witness for C3: missing Authorization header on all five routes. -/
theorem mutation_unauthenticated_401_witness :
    createPost (fun _ => none) none {} "n1" 0 [] = ⟨401, none, []⟩ ∧
    updatePost (fun _ => none) none "p1" {} [] = ⟨401, none, []⟩ ∧
    deletePost (fun _ => none) none "p1" [] = ⟨401, none, []⟩ ∧
    publishPost (fun _ => none) none "p1" [] = ⟨401, none, []⟩ ∧
    unpublishPost (fun _ => none) none "p1" [] = ⟨401, none, []⟩ :=
  mutation_unauthenticated_401 (fun _ => none) none {} "p1" "n1" 0 []
    (Or.inl rfl)

/-- A verifier accepting exactly the token `"tok"` as the staff user
`u1`, for concrete witnesses. -/
def vOk : String → Option Principal :=
  fun t => if t = "tok" then some ⟨"u1", "alice", "writer"⟩ else none

/-- A well-formed bearer header for `vOk`. -/
def hdrOk : Option String := some "Bearer tok"

/-- A concrete stored draft post. -/
def dPost : Post :=
  { id := "d1", title := some "t", sapo := none, author := none
    authorId := some "u1", thumbnail := none, tags := some "xanh"
    content := none, type := "normal", emagPage := none, category := []
    status := "draft", createdAt := 5 }

/-- C4: For a stored post resolved by id, publish sets `status` to
`"published"` and unpublish back to `"draft"`, both answering the
updated document; neither operation changes any non-status field of any
stored post, so the publish/unpublish round trip leaves every frame
(all fields but `status`) identical. -/
theorem publish_unpublish_roundtrip (verify : String → Option Principal)
    (authHeader : Option String) (pid : String) (store : List Post)
    (u : Principal) (p : Post)
    (hok : requireAuth verify authHeader = .ok u)
    (hfind : store.find? (fun q => q.id = pid) = some p) :
    (publishPost verify authHeader pid store).body
      = some { p with status := "published" } ∧
    (unpublishPost verify authHeader pid
        (publishPost verify authHeader pid store).store).body
      = some { p with status := "draft" } ∧
    ((publishPost verify authHeader pid store).store).map Post.frame
      = store.map Post.frame ∧
    ((unpublishPost verify authHeader pid
        (publishPost verify authHeader pid store).store).store).map Post.frame
      = store.map Post.frame := by
  have h1 := find_findByIdAndUpdate pid
    (fun q => { q with status := "published" }) (fun q => rfl) store p hfind
  have h2 := find_findByIdAndUpdate pid
    (fun q => { q with status := "draft" }) (fun q => rfl)
    ((findByIdAndUpdate pid (fun q => { q with status := "published" }) store).2)
    { p with status := "published" } h1.2
  have hfr1 := frame_map_findByIdAndUpdate pid
    (fun q => { q with status := "published" }) (fun q => rfl) store
  have hfr2 := frame_map_findByIdAndUpdate pid
    (fun q => { q with status := "draft" }) (fun q => rfl)
    ((findByIdAndUpdate pid (fun q => { q with status := "published" }) store).2)
  simp only [publishPost, unpublishPost, hok]
  exact ⟨h1.1, h2.1, hfr1, hfr2.trans hfr1⟩

/-- Witness for C4 on a concrete draft post. -/
theorem publish_unpublish_roundtrip_witness :
    (publishPost vOk hdrOk "d1" [dPost]).body
      = some { dPost with status := "published" } ∧
    (unpublishPost vOk hdrOk "d1"
        (publishPost vOk hdrOk "d1" [dPost]).store).body
      = some { dPost with status := "draft" } ∧
    ((publishPost vOk hdrOk "d1" [dPost]).store).map Post.frame
      = [dPost].map Post.frame ∧
    ((unpublishPost vOk hdrOk "d1"
        (publishPost vOk hdrOk "d1" [dPost]).store).store).map Post.frame
      = [dPost].map Post.frame :=
  publish_unpublish_roundtrip vOk hdrOk "d1" [dPost]
    ⟨"u1", "alice", "writer"⟩ dPost (by decide) (by decide)

/-- C5: An authenticated create stores the post with `authorId` taken
from the verified principal — whatever `authorId` the body carried —
and with status `"draft"` unless the body set `status` explicitly. -/
theorem create_sets_author (verify : String → Option Principal)
    (authHeader : Option String) (body : PostInput) (newId : String)
    (now : Nat) (store : List Post) (u : Principal)
    (hok : requireAuth verify authHeader = .ok u) :
    createPost verify authHeader body newId now store
      = ⟨200, some (mkPost body u.id newId now),
          store ++ [mkPost body u.id newId now]⟩ ∧
    (mkPost body u.id newId now).authorId = some u.id ∧
    (body.status = none → (mkPost body u.id newId now).status = "draft") ∧
    ∀ s, body.status = some s → (mkPost body u.id newId now).status = s := by
  refine ⟨by simp [createPost, hok], rfl, ?_, ?_⟩
  · intro hs; simp [mkPost, hs]
  · intro s hs; simp [mkPost, hs]

/-- A request body trying to smuggle in a foreign `authorId`. -/
def evilBody : PostInput := { authorId := some "evil" }

/-- Witness for C5: the body's `authorId` is ignored, the default status
applies. -/
theorem create_sets_author_witness :
    createPost vOk hdrOk evilBody "n1" 7 []
      = ⟨200, some (mkPost evilBody "u1" "n1" 7),
          [] ++ [mkPost evilBody "u1" "n1" 7]⟩ ∧
    (mkPost evilBody "u1" "n1" 7).authorId = some "u1" ∧
    (evilBody.status = none → (mkPost evilBody "u1" "n1" 7).status = "draft") ∧
    ∀ s, evilBody.status = some s → (mkPost evilBody "u1" "n1" 7).status = s :=
  create_sets_author vOk hdrOk evilBody "n1" 7 []
    ⟨"u1", "alice", "writer"⟩ (by decide)

/-- C6: With a valid credential, updating an id that resolves to no
stored post answers HTTP 200 with a `null` body and leaves the store
unchanged, while get-by-id on the same unresolved id answers 404. -/
theorem update_absent_vs_get (verify : String → Option Principal)
    (authHeader : Option String) (pid : String) (body : PostInput)
    (store : List Post) (u : Principal)
    (hok : requireAuth verify authHeader = .ok u)
    (habs : ∀ p ∈ store, p.id ≠ pid) :
    updatePost verify authHeader pid body store = ⟨200, none, store⟩ ∧
    getPost verify authHeader pid store = (404, none) := by
  have hupd := findByIdAndUpdate_absent pid (applyInput body) store habs
  constructor
  · simp [updatePost, hok, hupd]
  · have hf : store.find? (fun p => p.id = pid) = none := by
      rw [List.find?_eq_none]
      intro a ha
      simpa using habs a ha
    simp [getPost, hok, hf]

/-- Witness for C6 on a store without the requested id. -/
theorem update_absent_vs_get_witness :
    updatePost vOk hdrOk "zzz" {} [dPost] = ⟨200, none, [dPost]⟩ ∧
    getPost vOk hdrOk "zzz" [dPost] = (404, none) :=
  update_absent_vs_get vOk hdrOk "zzz" {} [dPost]
    ⟨"u1", "alice", "writer"⟩ (by decide) (by decide)

/-! ## Search, upload and public read routes -/

/-- ASCII case-insensitive character comparison, modelling the
`$options:"i"` flag of the store's regex predicate. -/
def charEqCI (a b : Char) : Bool :=
  a = b
    || (a.isUpper && b.isLower && decide (a.toNat + 32 = b.toNat))
    || (a.isLower && b.isUpper && decide (a.toNat = b.toNat + 32))

/-- `isPre n h`: the pattern `n` matches at the start of `h`,
case-insensitively. -/
def isPre : List Char → List Char → Bool
  | [], _ => true
  | _ :: _, [] => false
  | a :: as, b :: bs => charEqCI a b && isPre as bs

/-- `hasSub n h`: the pattern `n` occurs somewhere inside `h`,
case-insensitively. -/
def hasSub (n : List Char) : List Char → Bool
  | [] => n.isEmpty
  | c :: cs => isPre n (c :: cs) || hasSub n cs

/-- Case-insensitive substring predicate of the persistence collaborator:
`{field: {$regex: q, $options: "i"}}` on a text field, for a literal
query.  A field the document never set (`none`) matches nothing. -/
def icontains : Option String → String → Bool
  | none, _ => false
  | some s, q => hasSub q.data s.data

/-- The `$or` disjunction of `GET /public/search` (lines 339-346):
title, sapo or tags. -/
def matchesSearch (q : String) (p : Post) : Bool :=
  icontains p.title q || icontains p.sapo q || icontains p.tags q

/-- `GET /public/search` (lines 335-354): published posts whose title,
sapo or tags match the case-insensitive pattern, in store order. -/
def searchPosts (q : String) (store : List Post) : List Post :=
  store.filter fun p => decide (p.status = "published") && matchesSearch q p

/-- C7: Free-text search returns exactly the stored posts that are
published and match the query case-insensitively in title, sapo or
tags (logical OR); a draft post is never returned, matching fields or
not. -/
theorem search_characterization (q : String) (store : List Post) (p : Post) :
    (p ∈ searchPosts q store ↔
      p ∈ store ∧ p.status = "published" ∧
        (icontains p.title q || icontains p.sapo q || icontains p.tags q)
          = true) ∧
    (p.status = "draft" → p ∉ searchPosts q store) := by
  constructor
  · simp [searchPosts, List.mem_filter, matchesSearch, and_assoc]
  · intro hd hmem
    simp only [searchPosts] at hmem
    rw [List.mem_filter] at hmem
    have h2 := hmem.2
    rw [hd] at h2
    simp [matchesSearch] at h2

/-- A published post whose only match for `"greentravel"` is its tags. -/
def tagPost : Post :=
  { id := "s1", title := some "hello", sapo := none, author := none
    authorId := none, thumbnail := none, tags := some "GreenTravel tips"
    content := none, type := "normal", emagPage := none, category := []
    status := "published", createdAt := 3 }

/-- The same content as a draft. -/
def tagDraft : Post := { tagPost with id := "s2", status := "draft" }

/-- Witness for C7: the tag-only match surfaces the published post and
never the identical draft. -/
theorem search_characterization_witness :
    tagPost ∈ searchPosts "greentravel" [tagPost, tagDraft] ∧
    tagDraft ∉ searchPosts "greentravel" [tagPost, tagDraft] :=
  ⟨(search_characterization "greentravel" [tagPost, tagDraft] tagPost).1.mpr
      (by decide),
   (search_characterization "greentravel" [tagPost, tagDraft] tagDraft).2
      (by decide)⟩

/-- The file carried by a multipart request, as multer hands it to the
handler. -/
structure UploadedFile where
  filename : String
deriving DecidableEq

/-- `POST /upload` (lines 267-279).  Its middleware chain is
`upload.single("image")` then the handler — `requireAuth` is absent, so
the Authorization header is never consulted: `400` when no file was
sent, otherwise the public URL of the stored file. -/
def uploadRoute (_authHeader : Option String) (file : Option UploadedFile)
    (protocol host : String) : Nat × Option String :=
  match file with
  | none => (400, none)
  | some f => (200, some (protocol ++ "://" ++ host ++ "/uploads/" ++ f.filename))

/-- C9: Uploading needs no credential — with a file and no Authorization
header the route answers the stored file's URL (HTTP 200, never 401),
with no file it answers 400; the header value never changes the
outcome. -/
theorem upload_requires_no_auth (f : UploadedFile) (protocol host : String) :
    uploadRoute none (some f) protocol host
      = (200, some (protocol ++ "://" ++ host ++ "/uploads/" ++ f.filename)) ∧
    uploadRoute none none protocol host = (400, none) ∧
    ∀ h : Option String,
      uploadRoute h (some f) protocol host
        = uploadRoute none (some f) protocol host :=
  ⟨rfl, rfl, fun _ => rfl⟩

/-- `Char.isHexDigit` -/
def Char.isHexDigit (c : Char) : Bool :=
  c.isDigit || ('a' ≤ c && c ≤ 'f') || ('A' ≤ c && c ≤ 'F')

/-- `mongoose.Types.ObjectId.isValid` on a string: a 24-character hex
string, or any 12-character string (taken as a 12-byte id). -/
def isValidObjectId (s : String) : Bool :=
  (decide (s.length = 24) && s.data.all Char.isHexDigit)
    || decide (s.length = 12)

/-- `GET /public/posts/:id` (lines 298-314): reject syntactically
invalid ids with 400 before touching the store; answer 404 both when
`findById` yields `null` and when the found post is not published. -/
def publicGetPost (id : String) (store : List Post) : Nat × Option Post :=
  if !isValidObjectId id then (400, none)
  else
    match store.find? (fun p => p.id = id) with
    | none => (404, none)
    | some p => if p.status ≠ "published" then (404, none) else (200, some p)

/-- C10: Through the public get-by-id route a stored draft post and a
nonexistent post are indistinguishable — both answer 404 — while a
syntactically invalid id answers 400 identically for every store (no
lookup can influence it). -/
theorem public_get_draft_indistinguishable (id : String)
    (store store2 : List Post) (p : Post)
    (hvalid : isValidObjectId id = true)
    (hfind : store.find? (fun q => q.id = id) = some p)
    (hdraft : p.status = "draft")
    (habsent : store2.find? (fun q => q.id = id) = none) :
    publicGetPost id store = (404, none) ∧
    publicGetPost id store2 = (404, none) ∧
    publicGetPost id store = publicGetPost id store2 ∧
    ∀ badId : String, ∀ s : List Post, isValidObjectId badId = false →
      publicGetPost badId s = (400, none) := by
  have h1 : publicGetPost id store = (404, none) := by
    simp [publicGetPost, hvalid, hfind, hdraft]
  have h2 : publicGetPost id store2 = (404, none) := by
    simp [publicGetPost, hvalid, habsent]
  refine ⟨h1, h2, h1.trans h2.symm, ?_⟩
  intro badId s hbad
  simp [publicGetPost, hbad]

/-- A stored draft post under a syntactically valid 24-hex ObjectId. -/
def hexDraft : Post := { dPost with id := "0123456789abcdef01234567" }

/-- Witness for C10: the draft's 404 equals the empty store's 404, and a
short malformed id gets 400. -/
theorem public_get_draft_indistinguishable_witness :
    publicGetPost "0123456789abcdef01234567" [hexDraft] = (404, none) ∧
    publicGetPost "0123456789abcdef01234567" [] = (404, none) ∧
    publicGetPost "0123456789abcdef01234567" [hexDraft]
      = publicGetPost "0123456789abcdef01234567" [] ∧
    publicGetPost "no" [hexDraft] = (400, none) := by
  have h := public_get_draft_indistinguishable "0123456789abcdef01234567"
    [hexDraft] [] hexDraft (by decide) (by decide) (by decide) rfl
  exact ⟨h.1, h.2.1, h.2.2.1, h.2.2.2 "no" [hexDraft] (by decide)⟩

end DulichXanh
